import Mathlib

set_option autoImplicit false

/-!
Verification of the greenlight movie API's filter/validation/pagination
component (package `internal/data`: the `Filters` struct with its
`sortColumn`, `sortDirection`, `limit` and `offset` methods and
`ValidateFilters`) and of the optimistic-concurrency update path of
`cmd/api/movies.go` (`updateMovieHandler`), together with spec-modelled
definitions for the parts of the repository that are not among the source
files (the `internal/validator` package, the `Movie` domain validation
`ValidateMovie`, the pagination metadata computation, and the query-string
reading helpers).
-/

namespace Greenlight

/-- Modelled from the spec: the `internal/validator` package is not among the
source files. Per spec section 6 the field error surface is a mapping from
field name to a single human-readable message string, and per section 7
validation collects all applicable field errors in one pass. `errors` keeps
the first message recorded for each field name. -/
structure Validator where
  errors : List (String × String)
deriving DecidableEq

/-- Modelled from the spec: `validator.New()` starts with no field errors. -/
def Validator.new : Validator := ⟨[]⟩

/-- Whether an error has been recorded for the field `key`. -/
def Validator.hasError (v : Validator) (key : String) : Bool :=
  v.errors.any (fun p => p.1 == key)

/-- Modelled from the spec: `AddError` records a message for a field,
keeping a single message per field name (a second message for the same field
is dropped, matching the map semantics of section 6). -/
def Validator.addError (v : Validator) (key message : String) : Validator :=
  if v.hasError key then v else ⟨v.errors ++ [(key, message)]⟩

/-- Modelled from the spec: `Check` records a field error when the condition
is false; checks are collected, never short-circuited (sections 4.1 and 7). -/
def Validator.check (v : Validator) (ok : Bool) (key message : String) : Validator :=
  if ok then v else v.addError key message

/-- `Valid()` holds when no field error has been recorded. -/
def Validator.valid (v : Validator) : Bool := v.errors.isEmpty

/-- Modelled from the spec: `validator.In(value, list...)` — membership of a
value in a list of permitted values, checked by exact match. -/
def valueIn (value : String) (list : List String) : Bool :=
  list.any (fun s => s == value)

/-- The `Filters` struct of `internal/data` (the second unit inside
`src/internal/jsonlog/jsonlog.go`): client-supplied page, page size and sort
key, plus the per-endpoint sort safelist. Go `int` fields are embedded as
`Int`; arithmetic that could overflow wraps explicitly (see `wrapInt64`). -/
structure Filters where
  Page : Int
  PageSize : Int
  sort : String
  SortSafeList : List String
deriving DecidableEq

/-- Go `strings.HasPrefix(s, "-")`: whether the first character is the
hyphen (a one-byte prefix, so the byte-level and character-level readings
coincide). -/
def hasDash (s : String) : Bool :=
  match s.data with
  | c :: _ => c == '-'
  | [] => false

/-- Go `strings.TrimPrefix(s, "-")`: drop a single leading hyphen when
present, otherwise return the string unchanged. -/
def stripDash (s : String) : String :=
  match s.data with
  | c :: rest => if c == '-' then String.mk rest else s
  | [] => s

/-- `Filters.sortColumn`: loop over the safelist; on the first entry equal to
`Sort`, return `Sort` with its leading hyphen stripped. Falling off the end
of the loop is `panic("unsafe sort parameter: ...")` in the source, modelled
here as `none`. -/
def Filters.sortColumn (f : Filters) : Option String :=
  match f.SortSafeList.find? (fun safeValue => f.sort == safeValue) with
  | some _ => some (stripDash f.sort)
  | none => none

/-- `Filters.sortDirection`: "DESC" when `Sort` begins with a hyphen,
otherwise "ASC". -/
def Filters.sortDirection (f : Filters) : String :=
  if hasDash f.sort then "DESC" else "ASC"

/-- `ValidateFilters`: the four range checks on page and page size and the
safelist membership check on sort, in source order. -/
def ValidateFilters (v : Validator) (f : Filters) : Validator :=
  ((((v.check (decide (0 < f.Page)) "page" "must be greater than zero").check
      (decide (f.Page ≤ 10000000)) "page" "must be a maximum of 10 million").check
      (decide (0 < f.PageSize)) "page_size" "must be greater than zero").check
      (decide (f.PageSize ≤ 100)) "page_size" "must be a maximum of 100").check
      (valueIn f.sort f.SortSafeList) "sort" "invalid sort value"

/-- Two's-complement wrap-around of Go's 64-bit `int`. -/
def wrapInt64 (x : Int) : Int := (x + 2 ^ 63) % 2 ^ 64 - 2 ^ 63

/-- `Filters.limit`: the page size. -/
def Filters.limit (f : Filters) : Int := f.PageSize

/-- `Filters.offset`: `(Page - 1) * PageSize` in Go 64-bit int arithmetic. -/
def Filters.offset (f : Filters) : Int := wrapInt64 ((f.Page - 1) * f.PageSize)

/-- Pagination metadata (spec section 3): current/first/last page, page size
and total record count. -/
structure Metadata where
  CurrentPage : Int
  PageSize : Int
  FirstPage : Int
  LastPage : Int
  TotalRecords : Int
deriving DecidableEq

/-- The zero-value metadata record. -/
def Metadata.empty : Metadata := ⟨0, 0, 0, 0, 0⟩

/-- Modelled from the spec: the metadata computation (`ComputeMetadata`) is
not among the source files. Per spec section 4.1: when `totalRecords` is 0 it
returns the all-zero metadata; otherwise `firstPage = 1`, `lastPage` is the
ceiling of `totalRecords / pageSize` computed by exact integer arithmetic as
`(totalRecords + pageSize - 1) / pageSize`, and `page` and `pageSize` are
echoed verbatim. -/
def calculateMetadata (totalRecords page pageSize : Int) : Metadata :=
  if totalRecords = 0 then Metadata.empty
  else
    { CurrentPage := page
      PageSize := pageSize
      FirstPage := 1
      LastPage := (totalRecords + pageSize - 1) / pageSize
      TotalRecords := totalRecords }

/-- The versioned movie record (spec section 3): identity assigned by the
store, a version counter starting at 1, and the domain fields. `CreatedAt` is
an opaque timestamp, `Runtime` the minutes count (Go `int32`). -/
structure Movie where
  ID : Int
  CreatedAt : Int
  Title : String
  Year : Int
  Runtime : Int
  Genres : List String
  Version : Int
deriving DecidableEq

/-- Go `len(s)` on a string: its byte length. -/
def byteLen (s : String) : Nat := s.utf8ByteSize

/-- Whether every character of the string is already lowercase. -/
def isLower (s : String) : Bool := s.data.all (fun c => c.toLower == c)

/-- Whether all entries of the list are distinct. -/
def allUnique (values : List String) : Bool :=
  values.eraseDups.length == values.length

/-- Modelled from the spec: `ValidateMovie` is not among the source files.
Per spec section 4.2 step 3 the merged record must have a non-empty title of
at most 500 bytes, a year between 1888 and the current year inclusive, a
positive runtime, and a non-empty set of at most 5 unique lowercase genre
strings. `currentYear` stands for the clock reading the source takes from
`time.Now()`. -/
def ValidateMovie (v : Validator) (currentYear : Int) (m : Movie) : Validator :=
  ((((((((v.check (decide (m.Title ≠ "")) "title" "must be provided").check
      (decide (byteLen m.Title ≤ 500)) "title" "must not be more than 500 bytes long").check
      (decide (1888 ≤ m.Year)) "year" "must be greater than or equal to 1888").check
      (decide (m.Year ≤ currentYear)) "year" "must not be in the future").check
      (decide (0 < m.Runtime)) "runtime" "must be a positive integer").check
      (decide (m.Genres ≠ [])) "genres" "must contain at least 1 genre").check
      (decide (m.Genres.length ≤ 5)) "genres" "must not contain more than 5 genres").check
      (allUnique m.Genres) "genres" "must not contain duplicate values").check
      (m.Genres.all isLower) "genres" "must be lowercase"

/-- The partial update payload decoded by `updateMovieHandler` (lines
135-147 of `src/cmd/api/movies.go`): the pointer fields `Title`, `Year` and
`Runtime` are `Option`s whose `none` is the Go nil pointer, and `Genres` is
a Go slice whose nil (key absent from the JSON body) is `none`, while
`some []` is an explicitly empty list. -/
structure MovieUpdateInput where
  Title : Option String
  Year : Option Int
  Runtime : Option Int
  Genres : Option (List String)
deriving DecidableEq

/-- The merge step of `updateMovieHandler` (lines 153-166): each payload
field that is non-nil overwrites the fetched record, every nil field leaves
the record unchanged. -/
def mergeMovie (movie : Movie) (input : MovieUpdateInput) : Movie :=
  let movie1 := match input.Title with
    | some t => { movie with Title := t }
    | none => movie
  let movie2 := match input.Year with
    | some y => { movie1 with Year := y }
    | none => movie1
  let movie3 := match input.Runtime with
    | some r => { movie2 with Runtime := r }
    | none => movie2
  match input.Genres with
  | some g => { movie3 with Genres := g }
  | none => movie3

/-- The result of one call to the store's conditional update
(`app.models.Movies.Update`): success, the `ErrEditConflict` sentinel raised
on a version mismatch, or any other error. -/
inductive StoreUpdateResult where
  | ok
  | editConflict
  | otherError
deriving DecidableEq

/-- The responses the update path can produce past the fetch and decode
steps: the 422-equivalent field-error map, the 500-equivalent server error,
the 409-equivalent edit conflict, or the 200 response with the movie. -/
inductive UpdateOutcome where
  | failedValidation (errors : List (String × String))
  | serverError
  | editConflict
  | okResponse (movie : Movie)
deriving DecidableEq

/-- `updateMovieHandler` of `src/cmd/api/movies.go` past the fetch and JSON
decode (lines 149-200): merge, validate, then the source's two successive
calls to `app.models.Movies.Update` (lines 177 and 184). `store n` is the
result the store gives to the (n+1)-th Update call; the second component of
the result counts how many store Update calls were made. The first call's
error handling (lines 178-181) maps every error, `ErrEditConflict` included,
to `serverErrorResponse`; only the second call's (lines 185-193)
distinguishes `ErrEditConflict`. -/
def updateMovieHandler (currentYear : Int) (movie : Movie)
    (input : MovieUpdateInput) (store : Nat → StoreUpdateResult) :
    UpdateOutcome × Nat :=
  let merged := mergeMovie movie input
  let v := ValidateMovie Validator.new currentYear merged
  if v.valid then
    match store 0 with
    | .ok =>
      match store 1 with
      | .ok => (.okResponse merged, 2)
      | .editConflict => (.editConflict, 2)
      | .otherError => (.serverError, 2)
    | _ => (.serverError, 1)
  else
    (.failedValidation v.errors, 0)

/-- Modelled from the spec: the `readString` helper of `cmd/api/helpers.go`
is not among the source files; per the handler comments it falls back to the
default value when the query parameter is not provided by the client. -/
def readString (q : Option String) (defaultValue : String) : String :=
  q.getD defaultValue

/-- Modelled from the spec: the `readInt` helper of `cmd/api/helpers.go` is
not among the source files; per the handler comments it falls back to the
default value when the query parameter is not provided by the client. -/
def readInt (q : Option Int) (defaultValue : Int) : Int :=
  q.getD defaultValue

/-- The sort safelist declared by `listMoviesHandler`
(line 260 of `src/cmd/api/movies.go`). -/
def movieSortSafeList : List String :=
  ["id", "title", "year", "runtime", "-id", "-title", "-year", "-runtime"]

/-- The `Filters` value constructed by `listMoviesHandler` (lines 251-260):
page defaults to 1, page_size to 20, sort to "id", with the fixed
eight-entry safelist. `none` stands for a query parameter the client
omitted. -/
def listMoviesFilters (page pageSize : Option Int) (sortParam : Option String) : Filters :=
  { Page := readInt page 1
    PageSize := readInt pageSize 20
    sort := readString sortParam "id"
    SortSafeList := movieSortSafeList }

/-- A concrete movie record used to evaluate the update path. -/
def casablanca : Movie :=
  { ID := 1
    CreatedAt := 0
    Title := "Casablanca"
    Year := 1942
    Runtime := 102
    Genres := ["drama", "romance", "war"]
    Version := 3 }

/-- A payload with every field absent. -/
def noFieldsInput : MovieUpdateInput := ⟨none, none, none, none⟩

/-- A payload whose only present field is an explicitly empty genres list. -/
def emptyGenresInput : MovieUpdateInput := ⟨none, none, none, some []⟩

/-- A store whose conditional update always reports a version mismatch. -/
def conflictStore : Nat → StoreUpdateResult := fun _ => .editConflict

/-- A store whose conditional update always succeeds. -/
def okStore : Nat → StoreUpdateResult := fun _ => .ok

/-- A filters value inside the validated ranges. -/
def pageThreeFilters : Filters :=
  { Page := 3, PageSize := 20, sort := "id", SortSafeList := movieSortSafeList }

/-- Filters sorting by "-year" against the movie endpoint safelist. -/
def yearDescFilters : Filters :=
  { Page := 1, PageSize := 20, sort := "-year", SortSafeList := movieSortSafeList }

/-- Filters sorting by "title" against the movie endpoint safelist. -/
def titleAscFilters : Filters :=
  { Page := 1, PageSize := 20, sort := "title", SortSafeList := movieSortSafeList }

/-- Filters whose sort key "budget" is outside the movie endpoint safelist. -/
def budgetFilters : Filters :=
  { Page := 1, PageSize := 20, sort := "budget", SortSafeList := movieSortSafeList }

/-- Filters with all three of page, page size and sort invalid. -/
def allInvalidFilters : Filters :=
  { Page := 0, PageSize := 101, sort := "budget", SortSafeList := movieSortSafeList }

end Greenlight

namespace Greenlight

theorem Validator.hasError_check_self (v : Validator) (b : Bool) (k m : String) :
    (v.check b k m).hasError k = (v.hasError k || !b) := by
  unfold Validator.check Validator.addError Validator.hasError
  cases b
  · by_cases h : v.errors.any (fun p => p.1 == k) = true
    · simp [h]
    · simp only [Bool.not_eq_true] at h
      simp [h, List.any_append]
  · simp

theorem Validator.hasError_check_ne (v : Validator) (b : Bool) (key otherKey m : String)
    (hne : (key == otherKey) = false) :
    (v.check b key m).hasError otherKey = v.hasError otherKey := by
  unfold Validator.check Validator.addError Validator.hasError
  cases b
  · by_cases h : v.errors.any (fun p => p.1 == key) = true
    · simp [h]
    · simp only [Bool.not_eq_true] at h
      simp [h, List.any_append, hne]
  · simp

theorem Validator.hasError_check_mono (v : Validator) (b : Bool) (k k2 m : String)
    (h : v.hasError k = true) : (v.check b k2 m).hasError k = true := by
  unfold Validator.hasError at h
  unfold Validator.check Validator.addError Validator.hasError
  cases b
  · by_cases h2 : v.errors.any (fun p => p.1 == k2) = true
    · simp [h2, h]
    · simp only [Bool.not_eq_true] at h2
      simp [h2, List.any_append, h]
  · simpa using h

theorem Validator.check_false_hasError (v : Validator) (k m : String) :
    (v.check false k m).hasError k = true := by
  have := Validator.hasError_check_self v false k m
  simp at this
  exact this

theorem Validator.valid_eq_false_of_hasError (v : Validator) (k : String)
    (h : v.hasError k = true) : v.valid = false := by
  unfold Validator.valid
  unfold Validator.hasError at h
  cases he : v.errors with
  | nil => rw [he] at h; simp at h
  | cons a t => simp [he]

theorem valueIn_eq_true_iff (value : String) (list : List String) :
    valueIn value list = true ↔ value ∈ list := by
  simp [valueIn, List.any_eq_true]

theorem find?_beq_of_mem (s : String) (l : List String) (h : s ∈ l) :
    ∃ y, l.find? (fun x => s == x) = some y := by
  cases hf : l.find? (fun x => s == x) with
  | some y => exact ⟨y, rfl⟩
  | none =>
    have := List.find?_eq_none.mp hf s h
    simp at this

theorem stripDash_spec (s : String) :
    (hasDash s = true ∧ s = "-" ++ stripDash s) ∨
    (hasDash s = false ∧ stripDash s = s) := by
  cases s with
  | mk d =>
    cases d with
    | nil => right; exact ⟨rfl, rfl⟩
    | cons c rest =>
      by_cases hc : c = '-'
      · left
        subst hc
        refine ⟨by simp [hasDash], ?_⟩
        simp [stripDash]
        rfl
      · right
        have hcb : (c == '-') = false := by simp [hc]
        exact ⟨by simp [hasDash, hcb], by simp [stripDash, hcb]⟩

theorem wrapInt64_eq_self (x : Int) (h0 : 0 ≤ x) (h1 : x < 2 ^ 63) : wrapInt64 x = x := by
  unfold wrapInt64
  have h2 : (2 : Int) ^ 64 = 2 ^ 63 + 2 ^ 63 := by norm_num
  rw [Int.emod_eq_of_lt (by linarith) (by linarith)]
  ring

end Greenlight

namespace Greenlight

/-- Claim C1: evaluating the update path at an input where the store reports
a version mismatch: the source's first call to Update (line 177 of
`src/cmd/api/movies.go`) maps `ErrEditConflict` to `serverErrorResponse`
(500-equivalent), so the conflict is not surfaced as `editConflictResponse`,
contrary to the claim. -/
theorem updateConflictYieldsServerError :
    updateMovieHandler 2026 casablanca noFieldsInput conflictStore
      = (UpdateOutcome.serverError, 1) := by decide

/-- Claim C2: evaluating the update path at a valid input whose store calls
all succeed: the commit step invokes the store's conditional update twice
(lines 177 and 184 of `src/cmd/api/movies.go`), not once, contrary to the
claim (and as the spec itself flags as an accidental duplicate). -/
theorem updateCallsStoreTwice :
    updateMovieHandler 2026 casablanca noFieldsInput okStore
      = (UpdateOutcome.okResponse casablanca, 2) := by decide

/-- Claim C3: for page in [1, 10000000] and pageSize in [1, 100], the limit
is the page size (hence in [1, 100]) and the offset is exactly
(page - 1) * pageSize, which is nonnegative (the 64-bit wrap-around never
fires in this range). -/
theorem limitAndOffsetInRange (f : Filters) (h1 : 1 ≤ f.Page) (h2 : f.Page ≤ 10000000)
    (h3 : 1 ≤ f.PageSize) (h4 : f.PageSize ≤ 100) :
    f.limit = f.PageSize ∧ 1 ≤ f.limit ∧ f.limit ≤ 100 ∧
    f.offset = (f.Page - 1) * f.PageSize ∧ 0 ≤ f.offset := by
  have hp : f.Page - 1 ≤ 9999999 := by linarith
  have hp0 : 0 ≤ f.Page - 1 := by linarith
  have hs0 : (0 : Int) ≤ f.PageSize := by linarith
  have hx0 : 0 ≤ (f.Page - 1) * f.PageSize := mul_nonneg hp0 hs0
  have hb : (f.Page - 1) * f.PageSize ≤ 9999999 * 100 :=
    mul_le_mul hp h4 hs0 (by norm_num)
  have hx1 : (f.Page - 1) * f.PageSize < 2 ^ 63 := by
    have : (9999999 : Int) * 100 < 2 ^ 63 := by norm_num
    linarith
  have hoff : f.offset = (f.Page - 1) * f.PageSize := by
    unfold Filters.offset
    exact wrapInt64_eq_self _ hx0 hx1
  exact ⟨rfl, h3, h4, hoff, by rw [hoff]; exact hx0⟩

/-- Witness for C3 at page 3, page size 20. -/
theorem limitAndOffsetInRangeWitness :
    pageThreeFilters.limit = pageThreeFilters.PageSize ∧
    1 ≤ pageThreeFilters.limit ∧ pageThreeFilters.limit ≤ 100 ∧
    pageThreeFilters.offset = (pageThreeFilters.Page - 1) * pageThreeFilters.PageSize ∧
    0 ≤ pageThreeFilters.offset :=
  limitAndOffsetInRange pageThreeFilters (by decide) (by decide) (by decide) (by decide)

/-- Claim C4: the metadata computation returns the all-zero record for a
zero total, and otherwise echoes page and page size, sets firstPage to 1 and
lastPage to the exact integer ceiling of totalRecords / pageSize (pinned by
the characterization pageSize * (lastPage - 1) < totalRecords ≤
pageSize * lastPage); in particular lastPage is 2 for 21 records at page
size 20 and 1 for 20 records at page size 20. -/
theorem calculateMetadataCeil (t p ps : Int) :
    calculateMetadata 0 p ps = Metadata.empty ∧
    (1 ≤ t → 1 ≤ ps →
      (calculateMetadata t p ps).CurrentPage = p ∧
      (calculateMetadata t p ps).PageSize = ps ∧
      (calculateMetadata t p ps).FirstPage = 1 ∧
      (calculateMetadata t p ps).TotalRecords = t ∧
      ps * ((calculateMetadata t p ps).LastPage - 1) < t ∧
      t ≤ ps * (calculateMetadata t p ps).LastPage) ∧
    (calculateMetadata 21 1 20).LastPage = 2 ∧
    (calculateMetadata 20 1 20).LastPage = 1 := by
  refine ⟨rfl, ?_, by decide, by decide⟩
  intro ht hps
  have hne : ¬ (t = 0) := by omega
  unfold calculateMetadata
  rw [if_neg hne]
  have hd := Int.ediv_add_emod (t + ps - 1) ps
  have hr0 : 0 ≤ (t + ps - 1) % ps := Int.emod_nonneg _ (by omega)
  have hr1 : (t + ps - 1) % ps < ps := Int.emod_lt_of_pos _ (by omega)
  refine ⟨rfl, rfl, rfl, rfl, ?_, ?_⟩
  · show ps * ((t + ps - 1) / ps - 1) < t
    have e : ps * ((t + ps - 1) / ps - 1) = ps * ((t + ps - 1) / ps) - ps := by ring
    linarith
  · show t ≤ ps * ((t + ps - 1) / ps)
    linarith

/-- Witness for C4 at 21 records, page 1, page size 20. -/
theorem calculateMetadataCeilWitness :
    (calculateMetadata 21 1 20).CurrentPage = 1 ∧
    (calculateMetadata 21 1 20).PageSize = 20 ∧
    (calculateMetadata 21 1 20).FirstPage = 1 ∧
    (calculateMetadata 21 1 20).TotalRecords = 21 ∧
    20 * ((calculateMetadata 21 1 20).LastPage - 1) < 21 ∧
    21 ≤ 20 * (calculateMetadata 21 1 20).LastPage :=
  (calculateMetadataCeil 21 1 20).2.1 (by decide) (by decide)

end Greenlight

namespace Greenlight

/-- Claim C5: for any sort key in the safelist, sortColumn returns (no panic)
the key with a single leading hyphen stripped — when the hyphen is present
the returned column prefixed by "-" reproduces the key and the direction is
"DESC", otherwise the column is the key verbatim and the direction is "ASC";
in particular "-year" resolves to ("year", "DESC") and "title" to
("title", "ASC"). -/
theorem sortResolvesSafelist (f : Filters) (h : f.sort ∈ f.SortSafeList) :
    (∃ c, f.sortColumn = some c ∧
      ((hasDash f.sort = true ∧ f.sort = "-" ++ c ∧ f.sortDirection = "DESC") ∨
       (hasDash f.sort = false ∧ c = f.sort ∧ f.sortDirection = "ASC"))) ∧
    (yearDescFilters.sortColumn = some "year" ∧ yearDescFilters.sortDirection = "DESC") ∧
    (titleAscFilters.sortColumn = some "title" ∧ titleAscFilters.sortDirection = "ASC") := by
  refine ⟨?_, by decide, by decide⟩
  obtain ⟨y, hy⟩ := find?_beq_of_mem f.sort f.SortSafeList h
  have hcol : f.sortColumn = some (stripDash f.sort) := by
    unfold Filters.sortColumn
    rw [hy]
  refine ⟨stripDash f.sort, hcol, ?_⟩
  rcases stripDash_spec f.sort with ⟨hd, he⟩ | ⟨hd, he⟩
  · left
    exact ⟨hd, he, by simp [Filters.sortDirection, hd]⟩
  · right
    exact ⟨hd, he, by simp [Filters.sortDirection, hd]⟩

/-- Witness for C5 at the "-year" sort key of the movie endpoint safelist. -/
theorem sortResolvesSafelistWitness :
    (∃ c, yearDescFilters.sortColumn = some c ∧
      ((hasDash yearDescFilters.sort = true ∧ yearDescFilters.sort = "-" ++ c ∧
        yearDescFilters.sortDirection = "DESC") ∨
       (hasDash yearDescFilters.sort = false ∧ c = yearDescFilters.sort ∧
        yearDescFilters.sortDirection = "ASC"))) ∧
    (yearDescFilters.sortColumn = some "year" ∧ yearDescFilters.sortDirection = "DESC") ∧
    (titleAscFilters.sortColumn = some "title" ∧ titleAscFilters.sortDirection = "ASC") :=
  sortResolvesSafelist yearDescFilters (by decide)

/-- Claim C6: sortColumn hits the panic (modelled as `none`) exactly on sort
keys outside the safelist; under the precondition that the key is in the
safelist it returns a column normally. -/
theorem sortColumnContract (f : Filters) :
    (f.sort ∉ f.SortSafeList → f.sortColumn = none) ∧
    (f.sort ∈ f.SortSafeList → ∃ c, f.sortColumn = some c) := by
  constructor
  · intro h
    unfold Filters.sortColumn
    have hn : f.SortSafeList.find? (fun safeValue => f.sort == safeValue) = none := by
      apply List.find?_eq_none.mpr
      intro x hx
      simp only [beq_eq_false_iff_ne, ne_eq, Bool.not_eq_true]
      intro heq
      exact h (heq ▸ hx)
    rw [hn]
  · intro h
    obtain ⟨y, hy⟩ := find?_beq_of_mem f.sort f.SortSafeList h
    refine ⟨stripDash f.sort, ?_⟩
    unfold Filters.sortColumn
    rw [hy]

/-- Witness for C6 at the out-of-safelist sort key "budget". -/
theorem sortColumnContractWitness : budgetFilters.sortColumn = none :=
  (sortColumnContract budgetFilters).1 (by decide)

/-- Claim C7: ValidateFilters checks page, page size and sort independently
and collects every violation: a "page" error is recorded exactly when page
is outside [1, 10000000], a "page_size" error exactly when pageSize is
outside [1, 100], a "sort" error exactly when the sort key is outside the
safelist — and with page 0, pageSize 101 and sort "budget" all three errors
are present simultaneously. -/
theorem validateFiltersIndependent (f : Filters) :
    ((ValidateFilters Validator.new f).hasError "page" = true ↔
      ¬ (0 < f.Page ∧ f.Page ≤ 10000000)) ∧
    ((ValidateFilters Validator.new f).hasError "page_size" = true ↔
      ¬ (0 < f.PageSize ∧ f.PageSize ≤ 100)) ∧
    ((ValidateFilters Validator.new f).hasError "sort" = true ↔
      f.sort ∉ f.SortSafeList) ∧
    ((ValidateFilters Validator.new allInvalidFilters).hasError "page" = true ∧
     (ValidateFilters Validator.new allInvalidFilters).hasError "page_size" = true ∧
     (ValidateFilters Validator.new allInvalidFilters).hasError "sort" = true) := by
  refine ⟨?_, ?_, ?_, by decide⟩
  · rw [ValidateFilters,
      Validator.hasError_check_ne _ _ _ _ _ (by decide),
      Validator.hasError_check_ne _ _ _ _ _ (by decide),
      Validator.hasError_check_ne _ _ _ _ _ (by decide),
      Validator.hasError_check_self, Validator.hasError_check_self]
    simp [Validator.new, Validator.hasError, not_and_or]
    omega
  · rw [ValidateFilters,
      Validator.hasError_check_ne _ _ _ _ _ (by decide),
      Validator.hasError_check_self, Validator.hasError_check_self,
      Validator.hasError_check_ne _ _ _ _ _ (by decide),
      Validator.hasError_check_ne _ _ _ _ _ (by decide)]
    simp [Validator.new, Validator.hasError, not_and_or]
    omega
  · rw [ValidateFilters, Validator.hasError_check_self,
      Validator.hasError_check_ne _ _ _ _ _ (by decide),
      Validator.hasError_check_ne _ _ _ _ _ (by decide),
      Validator.hasError_check_ne _ _ _ _ _ (by decide),
      Validator.hasError_check_ne _ _ _ _ _ (by decide)]
    simp only [Validator.new, Validator.hasError, List.any_nil, Bool.false_or]
    rw [← valueIn_eq_true_iff]
    simp

/-- Witness for C7: instantiating the "page" characterization at the
all-invalid filters value. -/
theorem validateFiltersIndependentWitness :
    (ValidateFilters Validator.new allInvalidFilters).hasError "page" = true :=
  ((validateFiltersIndependent allInvalidFilters).1).mpr (by decide)

end Greenlight

namespace Greenlight

theorem validateMovie_emptyGenres (cy : Int) (m : Movie) (h : m.Genres = []) :
    (ValidateMovie Validator.new cy m).hasError "genres" = true ∧
    (ValidateMovie Validator.new cy m).valid = false := by
  have hg : (ValidateMovie Validator.new cy m).hasError "genres" = true := by
    unfold ValidateMovie
    apply Validator.hasError_check_mono
    apply Validator.hasError_check_mono
    apply Validator.hasError_check_mono
    rw [show decide (m.Genres ≠ []) = false by simp [h]]
    exact Validator.check_false_hasError _ _ _
  exact ⟨hg, Validator.valid_eq_false_of_hasError _ _ hg⟩

/-- Claim C8: the merge step writes exactly the fields present in the
payload: fields the payload omits (nil pointers, nil genres slice) are left
at the fetched record's values and identity/version/creation time are never
touched, present fields overwrite the record — and a payload with an
explicitly empty genres list overwrites the genres and is then rejected by
domain validation (a "genres" field error, record invalid) rather than
silently accepted. -/
theorem mergeWritesOnlyPresentFields (movie : Movie) (input : MovieUpdateInput) (cy : Int) :
    ((mergeMovie movie input).ID = movie.ID ∧
     (mergeMovie movie input).CreatedAt = movie.CreatedAt ∧
     (mergeMovie movie input).Version = movie.Version) ∧
    ((input.Title = none → (mergeMovie movie input).Title = movie.Title) ∧
     (input.Year = none → (mergeMovie movie input).Year = movie.Year) ∧
     (input.Runtime = none → (mergeMovie movie input).Runtime = movie.Runtime) ∧
     (input.Genres = none → (mergeMovie movie input).Genres = movie.Genres)) ∧
    ((∀ t, input.Title = some t → (mergeMovie movie input).Title = t) ∧
     (∀ y, input.Year = some y → (mergeMovie movie input).Year = y) ∧
     (∀ r, input.Runtime = some r → (mergeMovie movie input).Runtime = r) ∧
     (∀ g, input.Genres = some g → (mergeMovie movie input).Genres = g)) ∧
    (input.Genres = some [] →
      (mergeMovie movie input).Genres = [] ∧
      (ValidateMovie Validator.new cy (mergeMovie movie input)).hasError "genres" = true ∧
      (ValidateMovie Validator.new cy (mergeMovie movie input)).valid = false) := by
  have hgen : ∀ g, input.Genres = some g → (mergeMovie movie input).Genres = g := by
    intro g hg
    obtain ⟨it, iy, ir, ig⟩ := input
    cases it <;> cases iy <;> cases ir <;> simp_all [mergeMovie]
  refine ⟨?_, ?_, ?_, ?_⟩
  · obtain ⟨it, iy, ir, ig⟩ := input
    cases it <;> cases iy <;> cases ir <;> cases ig <;> simp [mergeMovie]
  · obtain ⟨it, iy, ir, ig⟩ := input
    cases it <;> cases iy <;> cases ir <;> cases ig <;> simp [mergeMovie]
  · obtain ⟨it, iy, ir, ig⟩ := input
    cases it <;> cases iy <;> cases ir <;> cases ig <;> simp [mergeMovie]
  · intro hg
    have hempty := hgen [] hg
    exact ⟨hempty, (validateMovie_emptyGenres cy _ hempty).1,
      (validateMovie_emptyGenres cy _ hempty).2⟩

/-- Witness for C8: the empty-genres payload on the Casablanca record. -/
theorem mergeWritesOnlyPresentFieldsWitness :
    (mergeMovie casablanca emptyGenresInput).Genres = [] ∧
    (ValidateMovie Validator.new 2026 (mergeMovie casablanca emptyGenresInput)).hasError "genres" = true ∧
    (ValidateMovie Validator.new 2026 (mergeMovie casablanca emptyGenresInput)).valid = false :=
  (mergeWritesOnlyPresentFields casablanca emptyGenresInput 2026).2.2.2 rfl

/-- Claim C9: when the merged record fails domain validation, the update
path returns the field-error map and performs zero store Update calls, so
the stored record is untouched. -/
theorem validationFailureNoStoreCall (cy : Int) (movie : Movie)
    (input : MovieUpdateInput) (store : Nat → StoreUpdateResult)
    (h : (ValidateMovie Validator.new cy (mergeMovie movie input)).valid = false) :
    updateMovieHandler cy movie input store
      = (UpdateOutcome.failedValidation
          (ValidateMovie Validator.new cy (mergeMovie movie input)).errors, 0) := by
  unfold updateMovieHandler
  simp [h]

/-- Witness for C9: the empty-genres payload fails validation and the
handler makes no store call even against an always-succeeding store. -/
theorem validationFailureNoStoreCallWitness :
    (ValidateMovie Validator.new 2026 (mergeMovie casablanca emptyGenresInput)).valid = false ∧
    updateMovieHandler 2026 casablanca emptyGenresInput okStore
      = (UpdateOutcome.failedValidation
          (ValidateMovie Validator.new 2026 (mergeMovie casablanca emptyGenresInput)).errors, 0) :=
  ⟨by decide, validationFailureNoStoreCall 2026 casablanca emptyGenresInput okStore (by decide)⟩

/-- Claim C10: with all three query parameters omitted the list endpoint
uses page 1, page size 20 and sort "id", the safelist is exactly the eight
declared strings, and these defaults pass ValidateFilters. -/
theorem listDefaultsPassValidation :
    listMoviesFilters none none none
      = { Page := 1, PageSize := 20, sort := "id", SortSafeList := movieSortSafeList } ∧
    movieSortSafeList
      = ["id", "title", "year", "runtime", "-id", "-title", "-year", "-runtime"] ∧
    (ValidateFilters Validator.new (listMoviesFilters none none none)).valid = true := by
  decide

end Greenlight
